import Mathlib

/-!
Shallow embedding of `src/user_main.c` (ESP8266 I2C / ADS1115 example):
the I2C command-link construction, the two register-transaction
operations, bus initialization, device initialization, and the polling
task, together with proofs of the specified properties.

The vendor bus driver (`driver/i2c.h`) is external to the repository; it
is modelled as an oracle (`BusDriver`) that assigns a status code and
delivered bytes to each submitted command link.  `ESP_ERROR_CHECK` is
modelled by returning `none` (process abort) on a non-`ESP_OK` status.
-/

/-- Status codes returned by the bus driver (`esp_err.h`). -/
inductive esp_err
| ESP_OK
| ESP_FAIL
| ESP_ERR_INVALID_ARG
| ESP_ERR_INVALID_STATE
| ESP_ERR_TIMEOUT
deriving DecidableEq, Repr

open esp_err

/-- Bus controller mode (`i2c_mode_t`); only master mode is used. -/
inductive i2c_mode
| I2C_MODE_MASTER
deriving DecidableEq, Repr

/-- `i2c_config_t`: the bus configuration written by `i2c_example_master_init`. -/
structure i2c_config_t where
  mode : i2c_mode
  sda_io_num : Nat
  sda_pullup_en : Nat
  scl_io_num : Nat
  scl_pullup_en : Nat
  clk_stretch_tick : Nat
deriving DecidableEq, Repr

/-- `I2C_MASTER_WRITE`: direction bit for a write (source `WRITE_BIT`). -/
def I2C_MASTER_WRITE : Nat := 0

/-- `I2C_MASTER_READ`: direction bit for a read (source `READ_BIT`). -/
def I2C_MASTER_READ : Nat := 1

def WRITE_BIT : Nat := I2C_MASTER_WRITE

def READ_BIT : Nat := I2C_MASTER_READ

/-- `ACK_CHECK_EN 0x1`: master checks the ack from the slave. -/
def ACK_CHECK_EN : Nat := 0x1

/-- `ACK_CHECK_DIS 0x0`: master does not check the ack from the slave. -/
def ACK_CHECK_DIS : Nat := 0x0

/-- `ACK_VAL 0x0`: standard acknowledgment sent by the master on a read byte. -/
def ACK_VAL : Nat := 0x0

/-- `NACK_VAL 0x1`: no-acknowledgment sent by the master on a read byte. -/
def NACK_VAL : Nat := 0x1

/-- `LAST_NACK_VAL 0x2`: ack policy token: ack every byte except the last, nack the last. -/
def LAST_NACK_VAL : Nat := 0x2

/-- `ADS1115_SENSOR_ADDR_GND 0x48`: the 7-bit device address used throughout. -/
def ADS1115_SENSOR_ADDR_GND : Nat := 0x48

def ADS1115_SENSOR_ADDR_VDD : Nat := 0x49

def ADS1115_SENSOR_ADDR_SDA : Nat := 0x4A

def ADS1115_SENSOR_ADDR_SCL : Nat := 0x4B

/-- ADS1115 register pointer values. -/
def CONVERSION_REG : Nat := 0x00

def CONFIG_REG : Nat := 0x01

def LO_THRESH_REG : Nat := 0x02

def HI_THRESH_REG : Nat := 0x03

/-- Source macro `I2C_EXAMPLE_MASTER_SCL_IO` (gpio number for the clock line). -/
def I2C_EXAMPLE_MASTER_SCL : Nat := 2

/-- Source macro `I2C_EXAMPLE_MASTER_SDA_IO` (gpio number for the data line). -/
def I2C_EXAMPLE_MASTER_SDA : Nat := 0

/-- `I2C_EXAMPLE_MASTER_NUM` = `I2C_NUM_0`. -/
def I2C_EXAMPLE_MASTER_NUM : Nat := 0

/-- FreeRTOS tick period in milliseconds (ESP8266 runs a 100 Hz tick). -/
def portTICK_RATE_MS : Nat := 10

/-- One primitive of an I2C command link. -/
inductive i2c_cmd
| start
| stop
| write_byte (data : Nat) (ack_en : Bool)
| read_byte (ack : Nat)
deriving DecidableEq, Repr

/-- `i2c_cmd_link_create()`: a fresh, empty command link. -/
def i2c_cmd_link_create : List i2c_cmd := []

/-- `i2c_master_start(cmd)`: queue a start condition. -/
def i2c_master_start (cmd : List i2c_cmd) : List i2c_cmd :=
  cmd ++ [i2c_cmd.start]

/-- `i2c_master_stop(cmd)`: queue a stop condition. -/
def i2c_master_stop (cmd : List i2c_cmd) : List i2c_cmd :=
  cmd ++ [i2c_cmd.stop]

/-- `i2c_master_write_byte(cmd, data, ack_en)`: queue one byte, ack-checked iff `ack_en ≠ 0`. -/
def i2c_master_write_byte (cmd : List i2c_cmd) (data : Nat) (ack_en : Nat) : List i2c_cmd :=
  cmd ++ [i2c_cmd.write_byte data (ack_en != 0)]

/-- `i2c_master_write(cmd, data, data_len, ack_en)`: queue `data_len` bytes with one ack policy. -/
def i2c_master_write (cmd : List i2c_cmd) (data : List Nat) (ack_en : Nat) : List i2c_cmd :=
  cmd ++ data.map (fun b => i2c_cmd.write_byte b (ack_en != 0))

/-- Ack value the driver sends for the `i`-th of `len` read bytes under policy `ack`:
with `LAST_NACK_VAL` every byte except the last gets `ACK_VAL` and the last gets
`NACK_VAL`; any other policy is applied uniformly (vendor driver semantics of
`i2c_master_read`). -/
def read_ack_for (ack : Nat) (i len : Nat) : Nat :=
  if ack = LAST_NACK_VAL then (if i + 1 = len then NACK_VAL else ACK_VAL) else ack

/-- `i2c_master_read(cmd, data, data_len, ack)`: queue `data_len` read-byte primitives. -/
def i2c_master_read (cmd : List i2c_cmd) (data_len : Nat) (ack : Nat) : List i2c_cmd :=
  cmd ++ (List.range data_len).map (fun i => i2c_cmd.read_byte (read_ack_for ack i data_len))

/-- Oracle for the external bus driver: `status` is the code `i2c_master_cmd_begin`
returns for a submitted command link, `bytes` are the bytes it delivers into the
link's queued read primitives. -/
structure BusDriver where
  status : List i2c_cmd → esp_err
  bytes : List i2c_cmd → List Nat

/-- Observable events of the program: delays, driver calls with their results,
log lines (format string plus variadic arguments), and a process abort raised by
`ESP_ERROR_CHECK`. -/
inductive Event
| vTaskDelay (ticks : Nat)
| driver_install (port : Nat) (mode : i2c_mode) (ret : esp_err)
| param_config (port : Nat) (conf : i2c_config_t) (ret : esp_err)
| cmd_begin (port : Nat) (txn : List i2c_cmd) (ticks : Nat) (ret : esp_err)
| logI (fmt : String) (args : List Int)
| logE (fmt : String) (args : List Int)
| abort_process
| i2c_driver_delete (port : Nat)
deriving DecidableEq, Repr

/-- The command links submitted to `i2c_master_cmd_begin` within an event trace. -/
def txns_of (evs : List Event) : List (List i2c_cmd) :=
  evs.filterMap (fun e => match e with
    | Event.cmd_begin _ txn _ _ => some txn
    | _ => none)

/-- The command link built by `i2c_example_master_ADS1115_write`:
start, address byte with write direction, register byte, the data bytes, stop
— every byte ack-checked. -/
def ADS1115_write_txn (reg_address : Nat) (data : List Nat) : List i2c_cmd :=
  i2c_master_stop
    (i2c_master_write
      (i2c_master_write_byte
        (i2c_master_write_byte (i2c_master_start i2c_cmd_link_create)
          (ADS1115_SENSOR_ADDR_GND <<< 1 ||| WRITE_BIT) ACK_CHECK_EN)
        reg_address ACK_CHECK_EN)
      data ACK_CHECK_EN)

/-- `i2c_example_master_ADS1115_write(i2c_num, reg_address, data, data_len)`:
build the command link above, submit it with a `1000 / portTICK_RATE_MS` tick
timeout, and return the driver status unchanged.
Returns the status together with the trace of driver submissions. -/
def i2c_example_master_ADS1115_write (bus : BusDriver) (i2c_num : Nat)
    (reg_address : Nat) (data : List Nat) : esp_err × List Event :=
  let cmd := ADS1115_write_txn reg_address data
  let ret := bus.status cmd
  (ret, [Event.cmd_begin i2c_num cmd (1000 / portTICK_RATE_MS) ret])

/-- The pointer-set command link built by `i2c_example_master_ADS1115_read`
(step 1: start, address byte with write direction, register byte, stop). -/
def ADS1115_pointer_set_txn (reg_address : Nat) : List i2c_cmd :=
  i2c_master_stop
    (i2c_master_write_byte
      (i2c_master_write_byte (i2c_master_start i2c_cmd_link_create)
        (ADS1115_SENSOR_ADDR_GND <<< 1 ||| WRITE_BIT) ACK_CHECK_EN)
      reg_address ACK_CHECK_EN)

/-- The data command link built by `i2c_example_master_ADS1115_read`
(step 2: start, address byte with read direction, `data_len` read bytes under
the `LAST_NACK_VAL` policy, stop). -/
def ADS1115_data_txn (data_len : Nat) : List i2c_cmd :=
  i2c_master_stop
    (i2c_master_read
      (i2c_master_write_byte (i2c_master_start i2c_cmd_link_create)
        (ADS1115_SENSOR_ADDR_GND <<< 1 ||| READ_BIT) ACK_CHECK_EN)
      data_len LAST_NACK_VAL)

/-- `i2c_example_master_ADS1115_read(i2c_num, reg_address, data, data_len)`:
submit the pointer-set link; if its status is not `ESP_OK` return that status
(the caller's buffer untouched); otherwise submit the data link, fill the
buffer with the delivered bytes, and return the second status.
Returns (status, buffer after the call, trace of driver submissions). -/
def i2c_example_master_ADS1115_read (bus : BusDriver) (i2c_num : Nat)
    (reg_address : Nat) (data : List Nat) (data_len : Nat) :
    esp_err × List Nat × List Event :=
  let cmd := ADS1115_pointer_set_txn reg_address
  let ret := bus.status cmd
  let sub1 := Event.cmd_begin i2c_num cmd (1000 / portTICK_RATE_MS) ret
  if ret ≠ ESP_OK then
    (ret, data, [sub1])
  else
    let cmd2 := ADS1115_data_txn data_len
    let ret2 := bus.status cmd2
    (ret2, bus.bytes cmd2, [sub1, Event.cmd_begin i2c_num cmd2 (1000 / portTICK_RATE_MS) ret2])

/-- Statuses the external driver returns for the two calls made by
`i2c_example_master_init`, plus the bus oracles used later in boot and polling. -/
structure SysDriver where
  install_ret : esp_err
  config_ret : esp_err
  boot_bus : BusDriver
  poll_bus : Nat → BusDriver

/-- The `i2c_config_t` value `i2c_example_master_init` fills in. -/
def master_conf : i2c_config_t :=
  { mode := i2c_mode.I2C_MODE_MASTER
    sda_io_num := I2C_EXAMPLE_MASTER_SDA
    sda_pullup_en := 1
    scl_io_num := I2C_EXAMPLE_MASTER_SCL
    scl_pullup_en := 1
    clk_stretch_tick := 300 }

/-- `i2c_example_master_init()`: fill `conf`, then
`ESP_ERROR_CHECK(i2c_driver_install(port, conf.mode))`, then
`ESP_ERROR_CHECK(i2c_param_config(port, &conf))`, then return `ESP_OK`.
A `none` result is the abort raised by `ESP_ERROR_CHECK`. -/
def i2c_example_master_init (d : SysDriver) : Option esp_err × List Event :=
  let i2c_master_port := I2C_EXAMPLE_MASTER_NUM
  let conf := master_conf
  let ev1 := Event.driver_install i2c_master_port conf.mode d.install_ret
  if d.install_ret ≠ ESP_OK then
    (none, [ev1, Event.abort_process])
  else
    let ev2 := Event.param_config i2c_master_port conf d.config_ret
    if d.config_ret ≠ ESP_OK then
      (none, [ev1, ev2, Event.abort_process])
    else
      (some ESP_OK, [ev1, ev2])

/-- `i2c_example_master_ADS1115_init(i2c_num)`: delay 100 ms, run the bus
initializer, then `ESP_ERROR_CHECK` one configuration-register write of the
single (uninitialized) byte `cmd_data`. -/
def i2c_example_master_ADS1115_init (d : SysDriver) (i2c_num : Nat)
    (cmd_data : Nat) : Option esp_err × List Event :=
  let ev0 := Event.vTaskDelay (100 / portTICK_RATE_MS)
  match i2c_example_master_init d with
  | (none, evs) => (none, ev0 :: evs)
  | (some _, evs) =>
    let wr := i2c_example_master_ADS1115_write d.boot_bus i2c_num CONFIG_REG [cmd_data]
    if wr.1 ≠ ESP_OK then
      (none, ev0 :: evs ++ wr.2 ++ [Event.abort_process])
    else
      (some ESP_OK, ev0 :: evs ++ wr.2)

/-- `(uint16_t)` value of the two-byte little-endian buffer `sensor_data`. -/
def uint16_of_bytes (l : List Nat) : Nat :=
  (l.getD 0 0) % 256 + 256 * ((l.getD 1 0) % 256)

/-- The `(int16_t)` cast applied to `sensor_data` in the success log call. -/
def int16_of_uint16 (v : Nat) : Int :=
  if v % 65536 < 32768 then (v % 65536 : Int) else (v % 65536 : Int) - 65536

/-- One iteration of the `while (1)` body of `i2c_task_example`: read the
conversion register, log the success or failure line, sleep 100 ms.
The source's call `i2c_example_master_ADS1115_read(I2C_EXAMPLE_MASTER_NUM,
CONVERSION_REG, sensor_data)` passes the `uint16_t` variable by value and
omits the `data_len` argument, so it does not match the function's
four-parameter prototype; it is modelled at its evident intent, a 2-byte
read into `&sensor_data`. -/
def i2c_task_iteration (bus : BusDriver) (sensor_data : List Nat) :
    List Nat × List Event :=
  let r := i2c_example_master_ADS1115_read bus I2C_EXAMPLE_MASTER_NUM CONVERSION_REG sensor_data 2
  let logs :=
    if r.1 = ESP_OK then
      [Event.logI "*******************\n" [],
       Event.logI "sensor_data: \n" [int16_of_uint16 (uint16_of_bytes r.2.1)]]
    else
      [Event.logE "No ack, sensor not connected...skip...\n" []]
  (r.2.1, r.2.2 ++ logs ++ [Event.vTaskDelay (100 / portTICK_RATE_MS)])

/-- `n` iterations of the polling loop, threading the `sensor_data` buffer;
returns the buffer after iteration `n` and the concatenated event trace. -/
def i2c_task_loop (d : SysDriver) (sensor_data : List Nat) : Nat → List Nat × List Event
| 0 => (sensor_data, [])
| n + 1 =>
  let p := i2c_task_loop d sensor_data n
  let q := i2c_task_iteration (d.poll_bus n) p.1
  (q.1, p.2 ++ q.2)

/-- `i2c_task_example`: run `i2c_example_master_ADS1115_init` once (its return
value is ignored, but a failed `ESP_ERROR_CHECK` inside it aborts the process,
producing no loop events), then the infinite `while (1)` loop, observed up to
`n` iterations.  `cmd_data` and `sensor_data0` stand for the two uninitialized
locals.  The `i2c_driver_delete` call after the loop is unreachable and so
never appears in any trace. -/
def i2c_task_example (d : SysDriver) (cmd_data : Nat) (sensor_data0 : List Nat)
    (n : Nat) : List Event :=
  match i2c_example_master_ADS1115_init d I2C_EXAMPLE_MASTER_NUM cmd_data with
  | (none, evs) => evs
  | (some _, evs) => evs ++ (i2c_task_loop d sensor_data0 n).2

/-- Is this event an error log line? -/
def isLogE : Event → Bool
| Event.logE _ _ => true
| _ => false

/-- Is this event an informational log line? -/
def isLogI : Event → Bool
| Event.logI _ _ => true
| _ => false

/-- The format strings of the informational log lines in a trace. -/
def logI_fmts (evs : List Event) : List String :=
  evs.filterMap (fun e => match e with
    | Event.logI fmt _ => some fmt
    | _ => none)

/-- The ack values of the read-byte primitives of a command link, in order. -/
def read_acks (cmd : List i2c_cmd) : List Nat :=
  cmd.filterMap (fun c => match c with
    | i2c_cmd.read_byte a => some a
    | _ => none)

/-- A bus oracle that fails every submission. -/
def failBus : BusDriver :=
  { status := fun _ => ESP_FAIL, bytes := fun _ => [] }

/-- A bus oracle that accepts every submission and delivers `[0x01, 0x00]`. -/
def okBus : BusDriver :=
  { status := fun _ => ESP_OK, bytes := fun _ => [0x01, 0x00] }

/-- Every event emitted by `i2c_example_master_ADS1115_read` is a driver
submission (a `cmd_begin` event). -/
theorem ADS1115_read_events_are_submissions (bus : BusDriver) (i2c_num : Nat)
    (reg_address : Nat) (data : List Nat) (data_len : Nat) :
    ∀ e ∈ (i2c_example_master_ADS1115_read bus i2c_num reg_address data data_len).2.2,
      ∃ port txn t ret, e = Event.cmd_begin port txn t ret := by
  intro e he
  unfold i2c_example_master_ADS1115_read at he
  by_cases h : bus.status (ADS1115_pointer_set_txn reg_address) = ESP_OK
  · simp only [h, ne_eq, not_true_eq_false, if_false, List.mem_cons, List.mem_singleton,
      List.not_mem_nil, or_false] at he
    rcases he with he | he
    · exact ⟨_, _, _, _, he⟩
    · exact ⟨_, _, _, _, he⟩
  · simp only [ne_eq, h, not_false_eq_true, if_true, List.mem_singleton] at he
    exact ⟨_, _, _, _, he⟩

/-- C1: for every register address and buffer length, the Read operation
submits the pointer-set link first; always, the first submitted link is the
pointer-set link; if its status is not `ESP_OK`, the whole call returns that
status unchanged, the buffer unchanged, and submits nothing else; if it is
`ESP_OK`, the data link is submitted second. -/
theorem ADS1115_read_pointer_set_first_then_data (bus : BusDriver)
    (i2c_num reg_address : Nat) (data : List Nat) (data_len : Nat) :
    (txns_of (i2c_example_master_ADS1115_read bus i2c_num reg_address data data_len).2.2).head?
      = some (ADS1115_pointer_set_txn reg_address)
    ∧ (bus.status (ADS1115_pointer_set_txn reg_address) ≠ ESP_OK →
        i2c_example_master_ADS1115_read bus i2c_num reg_address data data_len
          = (bus.status (ADS1115_pointer_set_txn reg_address), data,
             [Event.cmd_begin i2c_num (ADS1115_pointer_set_txn reg_address)
                (1000 / portTICK_RATE_MS) (bus.status (ADS1115_pointer_set_txn reg_address))]))
    ∧ (bus.status (ADS1115_pointer_set_txn reg_address) = ESP_OK →
        txns_of (i2c_example_master_ADS1115_read bus i2c_num reg_address data data_len).2.2
          = [ADS1115_pointer_set_txn reg_address, ADS1115_data_txn data_len]) := by
  unfold i2c_example_master_ADS1115_read
  by_cases h : bus.status (ADS1115_pointer_set_txn reg_address) = ESP_OK
  · simp [h, txns_of]
  · simp [h, txns_of]

/-- Witness for C1 at a concrete failing bus: the pointer-set submission fails
with `ESP_FAIL`, so the read returns `ESP_FAIL`, the buffer `[7, 7]` untouched,
and exactly one submission in the trace. -/
theorem ADS1115_read_pointer_set_first_then_data_witness :
    i2c_example_master_ADS1115_read failBus 0 0 [7, 7] 2
      = (ESP_FAIL, [7, 7],
         [Event.cmd_begin 0 (ADS1115_pointer_set_txn 0)
            (1000 / portTICK_RATE_MS) ESP_FAIL]) :=
  (ADS1115_read_pointer_set_first_then_data failBus 0 0 [7, 7] 2).2.1 (by decide)

/-- C2: for every register address in {0x00, 0x01, 0x02, 0x03} and every data
array, the Write operation submits exactly one command link, namely
[start, 0x48<<1|0, register, ...data, stop] with every queued byte
ack-checked, with a timeout of `1000 / portTICK_RATE_MS` ticks, i.e. 1000 ms. -/
theorem ADS1115_write_txn_shape (bus : BusDriver) (i2c_num reg_address : Nat)
    (data : List Nat)
    (h : reg_address ∈ [CONVERSION_REG, CONFIG_REG, LO_THRESH_REG, HI_THRESH_REG]) :
    i2c_example_master_ADS1115_write bus i2c_num reg_address data
      = (bus.status (ADS1115_write_txn reg_address data),
         [Event.cmd_begin i2c_num (ADS1115_write_txn reg_address data)
            (1000 / portTICK_RATE_MS) (bus.status (ADS1115_write_txn reg_address data))])
    ∧ ADS1115_write_txn reg_address data
        = [i2c_cmd.start,
           i2c_cmd.write_byte (ADS1115_SENSOR_ADDR_GND <<< 1 ||| WRITE_BIT) true,
           i2c_cmd.write_byte reg_address true]
          ++ data.map (fun b => i2c_cmd.write_byte b true) ++ [i2c_cmd.stop]
    ∧ (ADS1115_SENSOR_ADDR_GND <<< 1 ||| WRITE_BIT) = 0x90
    ∧ (∀ b ack, i2c_cmd.write_byte b ack ∈ ADS1115_write_txn reg_address data → ack = true)
    ∧ (1000 / portTICK_RATE_MS) * portTICK_RATE_MS = 1000 := by
  refine ⟨rfl, ?_, by decide, ?_, by decide⟩
  · simp [ADS1115_write_txn, i2c_master_stop, i2c_master_write, i2c_master_write_byte,
      i2c_master_start, i2c_cmd_link_create, ACK_CHECK_EN]
  · intro b ack hmem
    simp only [ADS1115_write_txn, i2c_master_stop, i2c_master_write, i2c_master_write_byte,
      i2c_master_start, i2c_cmd_link_create, ACK_CHECK_EN, List.nil_append, List.append_assoc,
      List.mem_append, List.mem_cons, List.mem_singleton, List.mem_map,
      List.not_mem_nil, or_false, false_or] at hmem
    rcases hmem with hmem | hmem | hmem | hmem | hmem
    · cases hmem
    · cases hmem; rfl
    · cases hmem; rfl
    · rcases hmem with ⟨x, _, hx⟩; cases hx; rfl
    · cases hmem

/-- Witness for C2 at register `CONFIG_REG` and data `[0xAB, 0xCD]` on the
accepting bus. -/
theorem ADS1115_write_txn_shape_witness :
    i2c_example_master_ADS1115_write okBus 0 CONFIG_REG [0xAB, 0xCD]
      = (ESP_OK,
         [Event.cmd_begin 0 (ADS1115_write_txn CONFIG_REG [0xAB, 0xCD])
            (1000 / portTICK_RATE_MS) ESP_OK]) :=
  (ADS1115_write_txn_shape okBus 0 CONFIG_REG [0xAB, 0xCD] (by decide)).1

/-- Extracting the read acks of a list of read-byte primitives yields the ack
values themselves. -/
theorem read_acks_of_read_bytes (f : Nat → Nat) (l : List Nat) :
    List.filterMap
      (fun c => match c with
        | i2c_cmd.read_byte a => some a
        | _ => none)
      (l.map (fun i => i2c_cmd.read_byte (f i))) = l.map f := by
  induction l with
  | nil => rfl
  | cons x xs ih => simp [ih]

/-- The acks of the read-byte primitives of the data link, expanded for a
positive length: `len` entries, `ACK_VAL` everywhere except the final
`NACK_VAL`. -/
theorem data_txn_read_acks (n : Nat) :
    read_acks (ADS1115_data_txn (n + 1))
      = List.replicate n ACK_VAL ++ [NACK_VAL] := by
  have hacks : read_acks (ADS1115_data_txn (n + 1))
      = (List.range (n + 1)).map (fun i => read_ack_for LAST_NACK_VAL i (n + 1)) := by
    simp only [ADS1115_data_txn, i2c_master_stop, i2c_master_read, i2c_master_write_byte,
      i2c_master_start, i2c_cmd_link_create, read_acks, List.filterMap_append,
      List.nil_append, List.append_assoc]
    rw [read_acks_of_read_bytes]
    simp
  rw [hacks, List.range_succ, List.map_append]
  have hlast : read_ack_for LAST_NACK_VAL n (n + 1) = NACK_VAL := by
    simp [read_ack_for]
  have hrest : (List.range n).map (fun i => read_ack_for LAST_NACK_VAL i (n + 1))
      = List.replicate n ACK_VAL := by
    have hlen : ((List.range n).map (fun i => read_ack_for LAST_NACK_VAL i (n + 1))).length = n := by
      simp
    have h1 : (List.range n).map (fun i => read_ack_for LAST_NACK_VAL i (n + 1))
        = List.replicate (((List.range n).map (fun i => read_ack_for LAST_NACK_VAL i (n + 1))).length) ACK_VAL := by
      apply List.eq_replicate_of_mem
      intro b hb
      rcases List.mem_map.mp hb with ⟨i, hi, hib⟩
      have hi' : i < n := List.mem_range.mp hi
      have hne : i + 1 ≠ n + 1 := by omega
      simp [read_ack_for, hne] at hib
      exact hib.symm
    rw [hlen] at h1
    exact h1
  rw [hrest, List.map_singleton, hlast]

/-- C3: for every read of more than one byte, the data link of the Read
operation acknowledges bytes 1..N-1 with `ACK_VAL` and byte N with `NACK_VAL`,
and the ack values are not uniform across the bytes. -/
theorem ADS1115_read_last_nack_policy (data_len : Nat) (h : 1 < data_len) :
    read_acks (ADS1115_data_txn data_len)
      = List.replicate (data_len - 1) ACK_VAL ++ [NACK_VAL]
    ∧ ¬ ∃ v, ∀ a ∈ read_acks (ADS1115_data_txn data_len), a = v := by
  obtain ⟨n, rfl⟩ : ∃ n, data_len = n + 1 := ⟨data_len - 1, by omega⟩
  have hacks := data_txn_read_acks n
  refine ⟨by simpa using hacks, ?_⟩
  rintro ⟨v, hv⟩
  have hn : 1 ≤ n := by omega
  have hA : ACK_VAL ∈ read_acks (ADS1115_data_txn (n + 1)) := by
    rw [hacks]
    exact List.mem_append_left _ (List.mem_replicate.mpr ⟨by omega, rfl⟩)
  have hN : NACK_VAL ∈ read_acks (ADS1115_data_txn (n + 1)) := by
    rw [hacks]
    exact List.mem_append_right _ (List.mem_singleton.mpr rfl)
  have h1 := hv _ hA
  have h2 := hv _ hN
  exact absurd (h1.trans h2.symm) (by decide)

/-- Witness for C3 at `data_len = 3`: acks are `[ACK_VAL, ACK_VAL, NACK_VAL]`. -/
theorem ADS1115_read_last_nack_policy_witness :
    read_acks (ADS1115_data_txn 3) = List.replicate 2 ACK_VAL ++ [NACK_VAL] :=
  (ADS1115_read_last_nack_policy 3 (by decide)).1

/-- A link closed by `i2c_master_stop` ends with the stop condition. -/
theorem i2c_master_stop_getLast (l : List i2c_cmd) :
    (i2c_master_stop l).getLast? = some i2c_cmd.stop := by
  unfold i2c_master_stop
  rw [List.getLast?_append_cons]
  rfl

theorem ADS1115_write_txn_head (reg_address : Nat) (data : List Nat) :
    (ADS1115_write_txn reg_address data).head? = some i2c_cmd.start := by
  simp [ADS1115_write_txn, i2c_master_stop, i2c_master_write, i2c_master_write_byte,
    i2c_master_start, i2c_cmd_link_create]

theorem ADS1115_pointer_set_txn_head (reg_address : Nat) :
    (ADS1115_pointer_set_txn reg_address).head? = some i2c_cmd.start := by
  simp [ADS1115_pointer_set_txn, i2c_master_stop, i2c_master_write_byte,
    i2c_master_start, i2c_cmd_link_create]

theorem ADS1115_data_txn_head (data_len : Nat) :
    (ADS1115_data_txn data_len).head? = some i2c_cmd.start := by
  simp [ADS1115_data_txn, i2c_master_stop, i2c_master_read, i2c_master_write_byte,
    i2c_master_start, i2c_cmd_link_create]

/-- C8: every command link submitted by the Write operation or by either
sub-transaction of the Read operation begins with a start condition and ends
with a stop condition. -/
theorem every_submitted_txn_framed (bus : BusDriver) (i2c_num reg_address : Nat)
    (data : List Nat) (data_len : Nat) :
    (∀ txn ∈ txns_of (i2c_example_master_ADS1115_write bus i2c_num reg_address data).2,
        txn.head? = some i2c_cmd.start ∧ txn.getLast? = some i2c_cmd.stop)
    ∧ (∀ txn ∈ txns_of (i2c_example_master_ADS1115_read bus i2c_num reg_address data data_len).2.2,
        txn.head? = some i2c_cmd.start ∧ txn.getLast? = some i2c_cmd.stop) := by
  constructor
  · intro txn htxn
    have : txn = ADS1115_write_txn reg_address data := by
      simpa [i2c_example_master_ADS1115_write, txns_of] using htxn
    subst this
    exact ⟨ADS1115_write_txn_head reg_address data, i2c_master_stop_getLast _⟩
  · intro txn htxn
    unfold i2c_example_master_ADS1115_read at htxn
    by_cases h : bus.status (ADS1115_pointer_set_txn reg_address) = ESP_OK
    · simp only [h, ne_eq, not_true_eq_false, if_false, txns_of, List.filterMap] at htxn
      rcases List.mem_cons.mp htxn with heq | htxn2
      · subst heq
        exact ⟨ADS1115_pointer_set_txn_head reg_address, i2c_master_stop_getLast _⟩
      · have : txn = ADS1115_data_txn data_len := by simpa using htxn2
        subst this
        exact ⟨ADS1115_data_txn_head data_len, i2c_master_stop_getLast _⟩
    · have : txn = ADS1115_pointer_set_txn reg_address := by
        simpa [h, txns_of] using htxn
      subst this
      exact ⟨ADS1115_pointer_set_txn_head reg_address, i2c_master_stop_getLast _⟩

/-- Witness for C8: concrete framing of the write link for register
`CONFIG_REG` with data `[0x12]` on the accepting bus. -/
theorem every_submitted_txn_framed_witness :
    (ADS1115_write_txn CONFIG_REG [0x12]).head? = some i2c_cmd.start
    ∧ (ADS1115_write_txn CONFIG_REG [0x12]).getLast? = some i2c_cmd.stop :=
  (every_submitted_txn_framed okBus 0 CONFIG_REG [0x12] 2).1
    (ADS1115_write_txn CONFIG_REG [0x12]) (by decide)

/-- C10: when the pointer-set link's status is not success, the Read operation
returns the caller's buffer completely unmodified and no submitted link
contains any read-byte primitive. -/
theorem ADS1115_read_failure_buffer_untouched (bus : BusDriver)
    (i2c_num reg_address : Nat) (data : List Nat) (data_len : Nat)
    (h : bus.status (ADS1115_pointer_set_txn reg_address) ≠ ESP_OK) :
    (i2c_example_master_ADS1115_read bus i2c_num reg_address data data_len).2.1 = data
    ∧ ∀ txn ∈ txns_of (i2c_example_master_ADS1115_read bus i2c_num reg_address data data_len).2.2,
        ∀ a, i2c_cmd.read_byte a ∉ txn := by
  unfold i2c_example_master_ADS1115_read
  simp only [ne_eq, h, not_false_eq_true, if_true]
  refine ⟨by trivial, ?_⟩
  intro txn htxn a
  have : txn = ADS1115_pointer_set_txn reg_address := by simpa [txns_of] using htxn
  subst this
  simp [ADS1115_pointer_set_txn, i2c_master_stop, i2c_master_write_byte,
    i2c_master_start, i2c_cmd_link_create]

/-- Witness for C10 at a concrete failing bus: the buffer `[9, 9]` comes back
unmodified. -/
theorem ADS1115_read_failure_buffer_untouched_witness :
    (i2c_example_master_ADS1115_read failBus 0 CONVERSION_REG [9, 9] 2).2.1 = [9, 9] :=
  (ADS1115_read_failure_buffer_untouched failBus 0 CONVERSION_REG [9, 9] 2 (by decide)).1

/-- A system driver whose every call succeeds. -/
def okSys : SysDriver :=
  { install_ret := ESP_OK, config_ret := ESP_OK, boot_bus := okBus, poll_bus := fun _ => okBus }

/-- A system driver whose boot installation fails. -/
def installFailSys : SysDriver :=
  { install_ret := ESP_FAIL, config_ret := ESP_OK, boot_bus := okBus, poll_bus := fun _ => okBus }

/-- A system driver whose boot configuration-register write fails. -/
def bootWriteFailSys : SysDriver :=
  { install_ret := ESP_OK, config_ret := ESP_OK, boot_bus := failBus, poll_bus := fun _ => okBus }

/-- A system driver that boots cleanly but fails every steady-state read. -/
def pollFailSys : SysDriver :=
  { install_ret := ESP_OK, config_ret := ESP_OK, boot_bus := okBus, poll_bus := fun _ => failBus }

/-- C4: if the driver reports any non-success status during boot installation
or configuration, `i2c_example_master_init` aborts: it returns no status, the
whole task trace is just the initialization trace (no polling iteration is
reached, for any number of observed iterations), and that trace ends in the
abort. -/
theorem master_init_failure_is_fatal (d : SysDriver) (cmd_data : Nat)
    (s0 : List Nat) (n : Nat)
    (h : d.install_ret ≠ ESP_OK ∨ d.config_ret ≠ ESP_OK) :
    (i2c_example_master_init d).1 = none
    ∧ i2c_task_example d cmd_data s0 n
        = (i2c_example_master_ADS1115_init d I2C_EXAMPLE_MASTER_NUM cmd_data).2
    ∧ (i2c_task_example d cmd_data s0 n).getLast? = some Event.abort_process := by
  by_cases h1 : d.install_ret = ESP_OK
  · have h2 : d.config_ret ≠ ESP_OK := by
      rcases h with h | h
      · exact absurd h1 h
      · exact h
    unfold i2c_task_example i2c_example_master_ADS1115_init i2c_example_master_init
    simp [h1, h2]
  · unfold i2c_task_example i2c_example_master_ADS1115_init i2c_example_master_init
    simp [h1]

/-- Witness for C4 at a concrete driver whose installation returns `ESP_FAIL`,
observed over five loop iterations. -/
theorem master_init_failure_is_fatal_witness :
    (i2c_example_master_init installFailSys).1 = none
    ∧ (i2c_task_example installFailSys 0 [0, 0] 5).getLast? = some Event.abort_process := by
  have h := master_init_failure_is_fatal installFailSys 0 [0, 0] 5 (Or.inl (by decide))
  exact ⟨h.1, h.2.2⟩

/-- The order the spec claims for the Bus Initializer, from its words: a
configuration call occurs, an installation call occurs, and the first
configuration call comes before the first installation call. -/
def config_precedes_install (evs : List Event) : Bool :=
  match evs.findIdx? (fun e => match e with | Event.param_config _ _ _ => true | _ => false),
        evs.findIdx? (fun e => match e with | Event.driver_install _ _ _ => true | _ => false) with
  | some i, some j => decide (i < j)
  | _, _ => false

/-- Counterexample to C7 as stated: on a driver whose every call succeeds,
`i2c_example_master_init` does not configure before installing — the source
calls `i2c_driver_install` first and `i2c_param_config` second. -/
theorem master_init_config_before_install_refuted :
    config_precedes_install (i2c_example_master_init okSys).2 = false := by rfl

/-- C7 (amended): the Bus Initializer first installs the driver for the
instance, and then — when installation succeeded — configures the bus
controller instance (pin roles, pull-up settings, clock-stretch budget), in
that order. -/
theorem master_init_installs_then_configures (d : SysDriver) :
    (i2c_example_master_init d).2.head?
      = some (Event.driver_install I2C_EXAMPLE_MASTER_NUM master_conf.mode d.install_ret)
    ∧ (d.install_ret = ESP_OK →
        (i2c_example_master_init d).2.take 2
          = [Event.driver_install I2C_EXAMPLE_MASTER_NUM master_conf.mode ESP_OK,
             Event.param_config I2C_EXAMPLE_MASTER_NUM master_conf d.config_ret])
    ∧ master_conf
        = { mode := i2c_mode.I2C_MODE_MASTER, sda_io_num := 0, sda_pullup_en := 1,
            scl_io_num := 2, scl_pullup_en := 1, clk_stretch_tick := 300 } := by
  refine ⟨?_, ?_, by rfl⟩
  · unfold i2c_example_master_init
    by_cases h1 : d.install_ret = ESP_OK <;>
      by_cases h2 : d.config_ret = ESP_OK <;> simp [h1, h2]
  · intro h1
    unfold i2c_example_master_init
    by_cases h2 : d.config_ret = ESP_OK <;> simp [h1, h2]

/-- Witness for the amended C7 on the all-success driver. -/
theorem master_init_installs_then_configures_witness :
    (i2c_example_master_init okSys).2.take 2
      = [Event.driver_install I2C_EXAMPLE_MASTER_NUM master_conf.mode ESP_OK,
         Event.param_config I2C_EXAMPLE_MASTER_NUM master_conf ESP_OK] :=
  (master_init_installs_then_configures okSys).2.1 rfl

/-- C9: when the bus boots cleanly but the one boot-time configuration write in
`i2c_example_master_ADS1115_init` returns a non-success status, the process
aborts just like an installation failure: the device initializer returns no
status, the task trace is only the initialization trace for any number of
observed iterations, and it ends in the abort. -/
theorem ADS1115_init_write_failure_is_fatal (d : SysDriver) (cmd_data : Nat)
    (s0 : List Nat) (n : Nat)
    (h1 : d.install_ret = ESP_OK) (h2 : d.config_ret = ESP_OK)
    (h : d.boot_bus.status (ADS1115_write_txn CONFIG_REG [cmd_data]) ≠ ESP_OK) :
    (i2c_example_master_ADS1115_init d I2C_EXAMPLE_MASTER_NUM cmd_data).1 = none
    ∧ i2c_task_example d cmd_data s0 n
        = (i2c_example_master_ADS1115_init d I2C_EXAMPLE_MASTER_NUM cmd_data).2
    ∧ (i2c_task_example d cmd_data s0 n).getLast? = some Event.abort_process := by
  unfold i2c_task_example i2c_example_master_ADS1115_init i2c_example_master_init
    i2c_example_master_ADS1115_write
  simp [h1, h2, h]

/-- Witness for C9 at a concrete driver whose boot write fails, observed over
three loop iterations. -/
theorem ADS1115_init_write_failure_is_fatal_witness :
    (i2c_example_master_ADS1115_init bootWriteFailSys I2C_EXAMPLE_MASTER_NUM 0).1 = none
    ∧ (i2c_task_example bootWriteFailSys 0 [0, 0] 3).getLast?
        = some Event.abort_process := by
  have h := ADS1115_init_write_failure_is_fatal bootWriteFailSys 0 [0, 0] 3 rfl rfl (by decide)
  exact ⟨h.1, h.2.2⟩

/-- One polling iteration ends with the fixed inter-iteration sleep. -/
theorem i2c_task_iteration_getLast (bus : BusDriver) (buf : List Nat) :
    ((i2c_task_iteration bus buf).2).getLast?
      = some (Event.vTaskDelay (100 / portTICK_RATE_MS)) := by
  simp only [i2c_task_iteration]
  rw [List.getLast?_append_cons]
  rfl

/-- No polling iteration ever aborts the process or tears the driver down. -/
theorem i2c_task_iteration_no_abort (bus : BusDriver) (buf : List Nat) :
    Event.abort_process ∉ (i2c_task_iteration bus buf).2
    ∧ ∀ p, Event.i2c_driver_delete p ∉ (i2c_task_iteration bus buf).2 := by
  have key : ∀ e ∈ (i2c_task_iteration bus buf).2,
      e ≠ Event.abort_process ∧ ∀ p, e ≠ Event.i2c_driver_delete p := by
    intro e he
    simp only [i2c_task_iteration, List.mem_append, List.mem_singleton] at he
    rcases he with (he | he) | he
    · rcases ADS1115_read_events_are_submissions _ _ _ _ _ e he with ⟨p, t, k, r, rfl⟩
      exact ⟨by simp, fun p => by simp⟩
    · by_cases hok :
        (i2c_example_master_ADS1115_read bus I2C_EXAMPLE_MASTER_NUM CONVERSION_REG buf 2).1
          = ESP_OK
      · rw [if_pos hok] at he
        rcases List.mem_cons.mp he with rfl | he2
        · exact ⟨by simp, fun p => by simp⟩
        · rcases List.mem_singleton.mp he2 with rfl
          exact ⟨by simp, fun p => by simp⟩
      · rw [if_neg hok] at he
        rcases List.mem_singleton.mp he with rfl
        exact ⟨by simp, fun p => by simp⟩
    · subst he
      exact ⟨by simp, fun p => by simp⟩
  constructor
  · intro hmem
    exact (key _ hmem).1 rfl
  · intro p hmem
    exact ((key _ hmem).2 p) rfl

/-- C5: a non-success status of a steady-state Read inside the polling loop is
logged as exactly one error line (and no informational line), and the loop
always continues: every observed trace of `n + 1` iterations extends the trace
of `n` iterations by one more iteration, every iteration ends with the same
fixed 100 ms sleep, and the loop never aborts and never reaches the teardown
call. -/
theorem poll_read_failure_logs_and_loop_continues (d : SysDriver) (s0 : List Nat)
    (i : Nat)
    (hfail : (i2c_example_master_ADS1115_read (d.poll_bus i) I2C_EXAMPLE_MASTER_NUM
                CONVERSION_REG (i2c_task_loop d s0 i).1 2).1 ≠ ESP_OK) :
    (∀ n, (i2c_task_loop d s0 (n + 1)).2
        = (i2c_task_loop d s0 n).2
          ++ (i2c_task_iteration (d.poll_bus n) (i2c_task_loop d s0 n).1).2)
    ∧ ((i2c_task_iteration (d.poll_bus i) (i2c_task_loop d s0 i).1).2).countP isLogE = 1
    ∧ ((i2c_task_iteration (d.poll_bus i) (i2c_task_loop d s0 i).1).2).countP isLogI = 0
    ∧ (∀ m buf, ((i2c_task_iteration (d.poll_bus m) buf).2).getLast?
        = some (Event.vTaskDelay (100 / portTICK_RATE_MS)))
    ∧ (100 / portTICK_RATE_MS) * portTICK_RATE_MS = 100
    ∧ (∀ n, Event.abort_process ∉ (i2c_task_loop d s0 n).2
        ∧ ∀ p, Event.i2c_driver_delete p ∉ (i2c_task_loop d s0 n).2) := by
  have hread0 : ∀ q : Event → Bool,
      (∀ port txn t ret, q (Event.cmd_begin port txn t ret) = false) →
      ((i2c_example_master_ADS1115_read (d.poll_bus i) I2C_EXAMPLE_MASTER_NUM
          CONVERSION_REG (i2c_task_loop d s0 i).1 2).2.2).countP q = 0 := by
    intro q hq
    rw [List.countP_eq_zero]
    intro e he
    rcases ADS1115_read_events_are_submissions _ _ _ _ _ e he with ⟨p, t, k, r, rfl⟩
    simp [hq]
  have hlogs : (i2c_task_iteration (d.poll_bus i) (i2c_task_loop d s0 i).1).2
      = (i2c_example_master_ADS1115_read (d.poll_bus i) I2C_EXAMPLE_MASTER_NUM
          CONVERSION_REG (i2c_task_loop d s0 i).1 2).2.2
        ++ [Event.logE "No ack, sensor not connected...skip...\n" []]
        ++ [Event.vTaskDelay (100 / portTICK_RATE_MS)] := by
    simp only [i2c_task_iteration]
    rw [if_neg hfail]
  refine ⟨fun n => rfl, ?_, ?_, fun m buf => i2c_task_iteration_getLast _ _, by decide, ?_⟩
  · rw [hlogs, List.countP_append, List.countP_append]
    rw [hread0 isLogE (fun _ _ _ _ => rfl)]
    rfl
  · rw [hlogs, List.countP_append, List.countP_append]
    rw [hread0 isLogI (fun _ _ _ _ => rfl)]
    rfl
  · intro n
    induction n with
    | zero => simp [i2c_task_loop]
    | succ n ih =>
      have hstep : (i2c_task_loop d s0 (n + 1)).2
          = (i2c_task_loop d s0 n).2
            ++ (i2c_task_iteration (d.poll_bus n) (i2c_task_loop d s0 n).1).2 := rfl
      constructor
      · rw [hstep]
        intro hmem
        rcases List.mem_append.mp hmem with hmem | hmem
        · exact ih.1 hmem
        · exact (i2c_task_iteration_no_abort _ _).1 hmem
      · intro p
        rw [hstep]
        intro hmem
        rcases List.mem_append.mp hmem with hmem | hmem
        · exact ih.2 p hmem
        · exact (i2c_task_iteration_no_abort _ _).2 p hmem

/-- Witness for C5 at a concrete always-failing polling bus, iteration 0:
exactly one error line is logged in that iteration. -/
theorem poll_read_failure_logs_and_loop_continues_witness :
    ((i2c_task_iteration (pollFailSys.poll_bus 0) (i2c_task_loop pollFailSys [0, 0] 0).1).2).countP isLogE = 1
    ∧ ((i2c_task_iteration (pollFailSys.poll_bus 0) (i2c_task_loop pollFailSys [0, 0] 0).1).2).countP isLogI = 0 := by
  have h := poll_read_failure_logs_and_loop_continues pollFailSys [0, 0] 0 (by decide)
  exact ⟨h.2.1, h.2.2.1⟩

/-- C6 (code bug): on the spec's end-to-end scenario — the driver succeeds and
delivers conversion bytes `[0x01, 0x00]` — the success branch emits two
informational lines, but neither format string contains a `%` conversion
specifier, so the decoded sensor value (passed as the argument `1`) is never
rendered into the output: the claim that the informational line reports the
decoded value does not hold of the code as written. -/
theorem poll_success_log_never_renders_value :
    (i2c_task_iteration okBus [0, 0]).2
      = [Event.cmd_begin I2C_EXAMPLE_MASTER_NUM (ADS1115_pointer_set_txn CONVERSION_REG)
           (1000 / portTICK_RATE_MS) ESP_OK,
         Event.cmd_begin I2C_EXAMPLE_MASTER_NUM (ADS1115_data_txn 2)
           (1000 / portTICK_RATE_MS) ESP_OK,
         Event.logI "*******************\n" [],
         Event.logI "sensor_data: \n" [1],
         Event.vTaskDelay (100 / portTICK_RATE_MS)]
    ∧ logI_fmts (i2c_task_iteration okBus [0, 0]).2
        = ["*******************\n", "sensor_data: \n"]
    ∧ "*******************\n".toList.contains '%' = false
    ∧ "sensor_data: \n".toList.contains '%' = false := by
  refine ⟨?_, ?_, by decide, by decide⟩
  · rfl
  · rfl
